import Mathlib

/-!
Verification of the FNOL (First Notice of Loss) extraction pipeline:
a shallow embedding of `src/models.py` (the pydantic data model and the
claim validator) and of `src/main.py` (the response sanitizer, the
decode stage of `extract_fnol_information_batch`, and the
`_apply_feedback_loop` critique/refine controller), together with
theorems settling the specification's claims about them.

Modelling conventions:
- JSON values are the inductive `Json`; numbers are modelled as
  integers (the behaviours under study only involve integer scores,
  years and costs).  Objects are association lists with the unique-key
  convention that `json.loads` guarantees.
- The external generator together with Python's `json.loads` is the
  environment of the loop: each round's critique and refinement
  response is given as `Option Json`, where `none` stands for a
  response whose text is not valid JSON (a `json.JSONDecodeError`).
- pydantic construction (`BatchFNOLInfo(**data)` and nested models) is
  translated field by field from `src/models.py` into the `fromJson`
  functions below, using pydantic v2 lax-mode coercions for the value
  shapes representable in `Json`.
- Python exceptions that would escape `_apply_feedback_loop`
  (an `AttributeError` from calling `.get` on a non-dict critique
  payload, a `TypeError` from ordering a non-number score against the
  target) are the `PyErr` error component of the loop's result.
-/

/-- A JSON value as produced by Python's `json.loads`, with numbers
restricted to integers.  Object fields are listed with unique keys. -/
inductive Json where
  | null : Json
  | bool (b : Bool) : Json
  | num (n : Int) : Json
  | str (s : String) : Json
  | arr (xs : List Json) : Json
  | obj (kvs : List (String × Json)) : Json

/-- Key lookup in a JSON object's field list (unique keys, so the first
match is the only match); `none` when the key is absent. -/
def lookupKey : List (String × Json) → String → Option Json
  | [], _ => none
  | (k, v) :: rest, key => if k = key then some v else lookupKey rest key

/-! ## Data model (`src/models.py`) -/

/-- `VehicleInfo`: all fields optional. -/
structure VehicleInfo where
  make : Option String
  model : Option String
  year : Option Int
  vin : Option String
  license_plate : Option String
  color : Option String
deriving DecidableEq

/-- The record produced by `VehicleInfo()` with no arguments: every
field takes its `None` default.  This is the `default_factory` used by
`FNOLInfo.vehicle`. -/
def VehicleInfo.empty : VehicleInfo := ⟨none, none, none, none, none, none⟩

/-- `DamageInfo`: `description` is required, the rest optional;
`estimated_repair_cost` carries a `ge=0` bound. -/
structure DamageInfo where
  description : String
  location : Option String
  severity : Option String
  estimated_repair_cost : Option Int
deriving DecidableEq

/-- `FNOLInfo`: one extracted claim.  `vehicle` is a non-optional field
with `default_factory=VehicleInfo`, while `damage` is `Optional`. -/
structure FNOLInfo where
  claim_id : Option String
  incident_date : Option String
  incident_location : Option String
  policyholder_name : Option String
  contact_phone : Option String
  contact_email : Option String
  vehicle : VehicleInfo
  damage : Option DamageInfo
  incident_description : Option String
  other_parties_involved : Option Bool
  police_report_filed : Option Bool
deriving DecidableEq

/-- `BatchFNOLInfo`: the claim batch, `claims` defaulting to `[]`. -/
structure BatchFNOLInfo where
  claims : List FNOLInfo
deriving DecidableEq

/-- Python truthiness of an `Optional[str]` value: `None` and the empty
string are falsy. -/
def pyFalsyOptStr : Option String → Bool
  | none => true
  | some s => s.isEmpty

/-- The condition `not self.damage or not self.damage.description` from
`FNOLInfo.validate_required_fields`. -/
def damageMissing (c : FNOLInfo) : Bool :=
  match c.damage with
  | none => true
  | some d => d.description.isEmpty

/-- `FNOLInfo.validate_required_fields`: appends the name of each
missing critical field in source order and pairs the list with the
validity flag `len(missing_fields) == 0`. -/
def FNOLInfo.validate_required_fields (c : FNOLInfo) : Bool × List String :=
  let missing_fields : List String := []
  let missing_fields :=
    if pyFalsyOptStr c.incident_date then missing_fields ++ ["incident_date"] else missing_fields
  let missing_fields :=
    if pyFalsyOptStr c.incident_location then missing_fields ++ ["incident_location"] else missing_fields
  let missing_fields :=
    if pyFalsyOptStr c.policyholder_name then missing_fields ++ ["policyholder_name"] else missing_fields
  let missing_fields :=
    if damageMissing c then missing_fields ++ ["damage.description"] else missing_fields
  (missing_fields.length == 0, missing_fields)

/-! ## pydantic field decoding

Each `fromJson` translates the corresponding pydantic model
construction (`Model(**data)` on a parsed JSON value).  pydantic v2
collects every field error; here the first failing field's message is
reported, which preserves exactly which inputs fail.  Messages are
built from the parsed value only — pydantic never sees the raw
response text, only the object handed to the constructor. -/

/-- Decoding a `str`-typed pydantic field: strings pass through,
everything else (pydantic v2 does not coerce numbers or booleans to
`str`) is rejected. -/
def pyStrOfJson : Json → Except String String
  | .str s => .ok s
  | _ => .error "Input should be a valid string"

/-- Decoding an `int`-typed pydantic field: integers pass, numeric
strings are coerced (v2 lax mode), booleans and other shapes are
rejected. -/
def pyIntOfJson : Json → Except String Int
  | .num n => .ok n
  | .str s =>
    match s.toInt? with
    | some n => .ok n
    | none => .error "Input should be a valid integer"
  | _ => .error "Input should be a valid integer"

/-- Decoding a `bool`-typed pydantic field with the v2 lax coercions:
booleans, 0/1 integers, and the usual true/false string spellings. -/
def pyBoolOfJson : Json → Except String Bool
  | .bool b => .ok b
  | .num n =>
    if n = 0 then .ok false
    else if n = 1 then .ok true
    else .error "Input should be a valid boolean"
  | .str s =>
    match s.toLower with
    | "true" => .ok true
    | "t" => .ok true
    | "y" => .ok true
    | "yes" => .ok true
    | "on" => .ok true
    | "1" => .ok true
    | "false" => .ok false
    | "f" => .ok false
    | "n" => .ok false
    | "no" => .ok false
    | "off" => .ok false
    | "0" => .ok false
    | _ => .error "Input should be a valid boolean"
  | _ => .error "Input should be a valid boolean"

/-- An `Optional[...]` pydantic field: an absent key or a JSON `null`
decodes to `None`; otherwise the base decoder runs. -/
def decodeOpt {α : Type} (f : Json → Except String α) : Option Json → Except String (Option α)
  | none => .ok none
  | some .null => .ok none
  | some j => (f j).map some

/-- `VehicleInfo.year`: `Optional[int]` with `ge=1900, le=2100`. -/
def pyYearOfJson (j : Json) : Except String Int := do
  let n ← pyIntOfJson j
  if 1900 ≤ n ∧ n ≤ 2100 then pure n
  else .error "year: Input should be in the range 1900 to 2100"

/-- A cost field: `Optional[float]` with `ge=0` (integer-valued costs
in this model). -/
def pyCostOfJson (j : Json) : Except String Int := do
  let n ← pyIntOfJson j
  if 0 ≤ n then pure n else .error "Input should be greater than or equal to 0"

/-- `VehicleInfo(**d)` on a parsed JSON value. -/
def VehicleInfo.fromJson : Json → Except String VehicleInfo
  | .obj kvs => do
    let make ← decodeOpt pyStrOfJson (lookupKey kvs "make")
    let model ← decodeOpt pyStrOfJson (lookupKey kvs "model")
    let year ← decodeOpt pyYearOfJson (lookupKey kvs "year")
    let vin ← decodeOpt pyStrOfJson (lookupKey kvs "vin")
    let license_plate ← decodeOpt pyStrOfJson (lookupKey kvs "license_plate")
    let color ← decodeOpt pyStrOfJson (lookupKey kvs "color")
    pure ⟨make, model, year, vin, license_plate, color⟩
  | _ => .error "vehicle: Input should be a valid dictionary"

/-- `DamageInfo(**d)` on a parsed JSON value: `description` is a
required `str` field. -/
def DamageInfo.fromJson : Json → Except String DamageInfo
  | .obj kvs => do
    let description ←
      match lookupKey kvs "description" with
      | none => Except.error "damage.description: Field required"
      | some d => pyStrOfJson d
    let location ← decodeOpt pyStrOfJson (lookupKey kvs "location")
    let severity ← decodeOpt pyStrOfJson (lookupKey kvs "severity")
    let estimated_repair_cost ← decodeOpt pyCostOfJson (lookupKey kvs "estimated_repair_cost")
    pure ⟨description, location, severity, estimated_repair_cost⟩
  | _ => .error "damage: Input should be a valid dictionary"

/-- The `vehicle` field's validation: an absent key takes the
`default_factory=VehicleInfo` empty record; a present value (including
an explicit `null`, since the field is not `Optional`) must validate
as a `VehicleInfo`. -/
def vehicleFieldOfJson : Option Json → Except String VehicleInfo
  | none => .ok VehicleInfo.empty
  | some v => VehicleInfo.fromJson v

/-- `FNOLInfo(**d)` on a parsed JSON value, fields validated in
declaration order.  An absent `vehicle` key takes the
`default_factory=VehicleInfo` empty record; an explicit `null` is a
validation error because the field is not `Optional`.  `damage` is
`Optional[DamageInfo]`, so absent or `null` becomes `None`. -/
def FNOLInfo.fromJson : Json → Except String FNOLInfo
  | .obj kvs => do
    let claim_id ← decodeOpt pyStrOfJson (lookupKey kvs "claim_id")
    let incident_date ← decodeOpt pyStrOfJson (lookupKey kvs "incident_date")
    let incident_location ← decodeOpt pyStrOfJson (lookupKey kvs "incident_location")
    let policyholder_name ← decodeOpt pyStrOfJson (lookupKey kvs "policyholder_name")
    let contact_phone ← decodeOpt pyStrOfJson (lookupKey kvs "contact_phone")
    let contact_email ← decodeOpt pyStrOfJson (lookupKey kvs "contact_email")
    let vehicle ← vehicleFieldOfJson (lookupKey kvs "vehicle")
    let damage ← decodeOpt DamageInfo.fromJson (lookupKey kvs "damage")
    let incident_description ← decodeOpt pyStrOfJson (lookupKey kvs "incident_description")
    let other_parties_involved ← decodeOpt pyBoolOfJson (lookupKey kvs "other_parties_involved")
    let police_report_filed ← decodeOpt pyBoolOfJson (lookupKey kvs "police_report_filed")
    pure ⟨claim_id, incident_date, incident_location, policyholder_name, contact_phone,
      contact_email, vehicle, damage, incident_description, other_parties_involved,
      police_report_filed⟩
  | _ => .error "Input should be a valid dictionary"

/-- `BatchFNOLInfo(**d)` on a parsed JSON value: an absent `claims` key
takes the `default_factory=list` empty list; a present key must be a
JSON array of claim objects.  A non-object top-level value is the
`TypeError` that `**` raises on a non-mapping, absorbed by the same
generic-exception handlers as a validation error. -/
def BatchFNOLInfo.fromJson : Json → Except String BatchFNOLInfo
  | .obj kvs =>
    match lookupKey kvs "claims" with
    | none => .ok ⟨[]⟩
    | some (.arr xs) => do
      let claims ← xs.mapM FNOLInfo.fromJson
      pure ⟨claims⟩
    | some _ => .error "claims: Input should be a valid list"
  | _ => .error "Input should be a valid dictionary"

/-! ## Response sanitizer (`extract_fnol_information_batch`, the
response-cleaning block repeated for every generator response)

Python strings are modelled as `List Char`; `pyStrip` is `str.strip()`
restricted to ASCII whitespace. -/

/-- The whitespace characters removed by `str.strip()` (ASCII subset). -/
def isPySpace (c : Char) : Bool :=
  c = ' ' || c = '\t' || c = '\n' || c = '\r' || c = '\x0b' || c = '\x0c'

/-- `str.strip()`: drop whitespace from both ends. -/
def pyStrip (s : List Char) : List Char :=
  ((s.dropWhile isPySpace).reverse.dropWhile isPySpace).reverse

/-- The fence-marker removal block: strip a leading fence with a
language tag, then a bare leading fence, then a trailing fence. -/
def dropFences (t0 : List Char) : List Char :=
  let t1 := if ("```json".toList).isPrefixOf t0 then t0.drop 7 else t0
  let t2 := if ("```".toList).isPrefixOf t1 then t1.drop 3 else t1
  if ("```".toList).isSuffixOf t2 then t2.take (t2.length - 3) else t2

/-- `str.find(c)`: index of the first occurrence, `none` for Python's
−1 result. -/
def firstIdxOf (c : Char) (s : List Char) : Option Nat :=
  s.findIdx? (fun x => x == c)

/-- `str.rfind(c)`: index of the last occurrence. -/
def lastIdxOf (c : Char) (s : List Char) : Option Nat :=
  match firstIdxOf c s.reverse with
  | none => none
  | some k => some (s.length - 1 - k)

/-- The text after trimming and fence removal, on which the brace scan
runs (`response_text` just before the `find`/`rfind` calls). -/
def preClean (s : List Char) : List Char :=
  pyStrip (dropFences (pyStrip s))

/-- Whether the brace-slicing guard
`first_brace != -1 and last_brace != -1 and last_brace > first_brace`
holds for a text. -/
def hasBracePair (t : List Char) : Bool :=
  match firstIdxOf '\x7b' t, lastIdxOf '\x7d' t with
  | some i, some j => decide (i < j)
  | _, _ => false

/-- The full response-cleaning block: trim, strip fences, trim, then
slice `[first_brace : last_brace + 1]` when the guard holds, else pass
the text through. -/
def sanitizeResponse (s : List Char) : List Char :=
  match firstIdxOf '\x7b' (preClean s), lastIdxOf '\x7d' (preClean s) with
  | some i, some j =>
    if i < j then ((preClean s).drop i).take (j + 1 - i) else preClean s
  | _, _ => preClean s

/-! ## Initial-extraction decode stage (`extract_fnol_information_batch`)

`parsed` stands for the outcome of `json.loads` on the sanitized
response text (library behaviour, part of the environment): `.error e`
is a `json.JSONDecodeError` with message `e`, `.ok v` the parsed value. -/

/-- The two failure shapes of the initial extraction: the
`json.JSONDecodeError` branch re-raises with the original raw response
text appended, the generic-exception branch re-raises with only the
exception's own message. -/
inductive ExtractError where
  | decodeError (jsonErr : String) (rawResponse : String) : ExtractError
  | schemaError (excMsg : String) : ExtractError
deriving DecidableEq

/-- The parse-and-construct stage of `extract_fnol_information_batch`
(feedback loop disabled): `json.loads` failure becomes a
`decodeError` carrying the raw response text; a successful parse whose
`BatchFNOLInfo(**data)` construction fails becomes a `schemaError`
carrying the constructor's message. -/
def extractStage (rawResponse : String) (parsed : Except String Json) :
    Except ExtractError BatchFNOLInfo :=
  match parsed with
  | .error e => .error (.decodeError e rawResponse)
  | .ok v =>
    match BatchFNOLInfo.fromJson v with
    | .ok b => .ok b
    | .error e => .error (.schemaError e)

/-- Segment containment on character lists: does `needle` occur
contiguously inside `hay`?  Used to state whether an error message
surfaces a given text. -/
def containsSeg (hay needle : List Char) : Bool :=
  match hay with
  | [] => needle.isEmpty
  | c :: rest => needle.isPrefixOf (c :: rest) || containsSeg rest needle

/-! ## Feedback-loop controller (`_apply_feedback_loop`) -/

/-- The Python exceptions that can escape the loop body: calling
`.get` on a non-dict critique payload, or ordering a non-number score
against the integer target. -/
inductive PyErr where
  | attributeError : PyErr
  | typeError : PyErr
deriving DecidableEq

/-- The default `max_iterations` argument of `_apply_feedback_loop`. -/
def max_iterations : Nat := 5

/-- The `target_score` local of `_apply_feedback_loop`. -/
def target_score : Int := 10

/-- Python's `quality_score >= target_score` where the score is an
arbitrary JSON value: numbers compare numerically, booleans compare as
0/1, anything else raises `TypeError` (`none`). -/
def pyGeTarget (score : Json) (target : Int) : Option Bool :=
  match score with
  | .num n => some (decide (target ≤ n))
  | .bool b => some (decide (target ≤ (if b then (1 : Int) else 0)))
  | _ => none

/-- Python truthiness of a JSON value, as applied to `json_valid`. -/
def truthy : Json → Bool
  | .null => false
  | .bool b => b
  | .num n => n != 0
  | .str s => !s.isEmpty
  | .arr xs => !xs.isEmpty
  | .obj kvs => !kvs.isEmpty

/-- One round's critique handling: `none` is the
`json.JSONDecodeError` branch, which sets `quality_score = 0` and
`json_valid = False` and falls through (no convergence, `.ok false`).
On a parsed payload, `feedback_data.get('overall_quality_score', 0)`
and `feedback_data.get('json_valid', True)` are read and the
convergence test `quality_score >= target_score and json_valid` is
evaluated; a non-dict payload raises `AttributeError` at the first
`.get`, a score that cannot be ordered against the target raises
`TypeError`. -/
def critiqueDecision (fb : Option Json) (target : Int) : Except PyErr Bool :=
  match fb with
  | none => .ok false
  | some (.obj kvs) =>
    let quality_score := (lookupKey kvs "overall_quality_score").getD (.num 0)
    let json_valid := (lookupKey kvs "json_valid").getD (.bool true)
    match pyGeTarget quality_score target with
    | none => .error .typeError
    | some b => .ok (b && truthy json_valid)
  | some _ => .error .attributeError

/-- The decoded outcome of round `i`'s refinement response: `none` when
the response is not valid JSON or `BatchFNOLInfo(**data)` fails, both
caught by the `except (json.JSONDecodeError, Exception)` handler. -/
def refineOutcome (refines : Nat → Option Json) (i : Nat) : Option BatchFNOLInfo :=
  match refines i with
  | none => none
  | some v =>
    match BatchFNOLInfo.fromJson v with
    | .ok b => some b
    | .error _ => none

/-- The refinement step's effect on `current_extraction`: replaced by
the decoded batch on success, retained unchanged on failure. -/
def applyRefine (refines : Nat → Option Json) (i : Nat) (current : BatchFNOLInfo) :
    BatchFNOLInfo :=
  (refineOutcome refines i).getD current

/-- The `while iteration < max_iterations` loop of
`_apply_feedback_loop`, with `critiques i` / `refines i` the decoded
responses of iteration `i`'s two generator calls, and the two trailing
naturals counting critique and refinement invocations.  `fuel` merely
bounds the recursion; `fuel ≥ maxIter − iteration` makes it exact. -/
def feedbackGo (critiques refines : Nat → Option Json) (maxIter : Nat) :
    Nat → Nat → BatchFNOLInfo → Nat → Nat → Except PyErr (BatchFNOLInfo × Nat × Nat)
  | 0, _, current, ncrit, nref => .ok (current, ncrit, nref)
  | fuel + 1, iteration, current, ncrit, nref =>
    if iteration < maxIter then
      match critiqueDecision (critiques (iteration + 1)) target_score with
      | .error e => .error e
      | .ok true => .ok (current, ncrit + 1, nref)
      | .ok false =>
        if maxIter ≤ iteration + 1 then
          .ok (current, ncrit + 1, nref)
        else
          feedbackGo critiques refines maxIter fuel (iteration + 1)
            (applyRefine refines (iteration + 1) current) (ncrit + 1) (nref + 1)
    else
      .ok (current, ncrit, nref)

/-- `_apply_feedback_loop` at its default `max_iterations = 5`,
returning the final batch together with the number of critique and
refinement invocations performed. -/
def applyFeedbackLoop (critiques refines : Nat → Option Json) (initial : BatchFNOLInfo) :
    Except PyErr (BatchFNOLInfo × Nat × Nat) :=
  feedbackGo critiques refines max_iterations max_iterations 0 initial 0 0

/-- Folding the refinement outcomes of iterations
`iteration + 1, …, iteration + m` over a starting batch. -/
def foldRefines (refines : Nat → Option Json) : Nat → Nat → BatchFNOLInfo → BatchFNOLInfo
  | _, 0, current => current
  | iteration, m + 1, current =>
    foldRefines refines (iteration + 1) m (applyRefine refines (iteration + 1) current)

/-- Modelled from the spec's exhaustion-bound wording: the batch
produced by the last refinement (rounds 1–4) whose response decoded
successfully, or the initial batch if every refinement failed. -/
def lastSuccessfulRefinement (refines : Nat → Option Json) (initial : BatchFNOLInfo) :
    BatchFNOLInfo :=
  [1, 2, 3, 4].foldl
    (fun acc i =>
      match refineOutcome refines i with
      | some b => b
      | none => acc)
    initial

/-! ## Helper lemmas -/

/-- Unfolding an `Except` bind that succeeds: the first stage succeeded
and its value fed the continuation. -/
theorem exceptBind_ok {ε α β : Type} {x : Except ε α} {f : α → Except ε β} {b : β} :
    (x >>= f) = .ok b ↔ ∃ a, x = .ok a ∧ f a = .ok b := by
  cases x with
  | error e =>
    constructor
    · intro h
      exact absurd h (by simp [Bind.bind, Except.bind])
    · rintro ⟨a, ha, _⟩
      exact absurd ha (by simp)
  | ok a =>
    constructor
    · intro h
      exact ⟨a, rfl, h⟩
    · rintro ⟨a2, ha, hf⟩
      cases ha
      exact hf

/-- `lookupKey` skips a field whose key differs from the one sought. -/
theorem lookupKey_cons_ne {k key : String} {v : Json} {kvs : List (String × Json)}
    (h : k ≠ key) : lookupKey ((k, v) :: kvs) key = lookupKey kvs key := by
  simp [lookupKey, h]


/-! ## C7: the response sanitizer -/

/-- C7: on any raw generator response, once the text has been trimmed
and its fence markers stripped, if a `\x7b` occurs before the last
`\x7d` (so the slicing guard holds) the sanitizer's output is exactly
the slice of that cleaned text from the first `\x7b` to the last
`\x7d` inclusive; when no such brace pair exists the cleaned text is
passed through unchanged.  The sanitizer is a total function, so it
never raises. -/
theorem c7_sanitizer : ∀ s : List Char,
    (∀ i j, firstIdxOf '\x7b' (preClean s) = some i →
      lastIdxOf '\x7d' (preClean s) = some j → i < j →
      sanitizeResponse s = ((preClean s).drop i).take (j + 1 - i))
    ∧ (hasBracePair (preClean s) = false → sanitizeResponse s = preClean s) := by
  intro s
  refine ⟨?_, ?_⟩
  · intro i j h1 h2 hij
    simp only [sanitizeResponse, h1, h2]
    rw [if_pos hij]
  · intro h
    rcases hf : firstIdxOf '\x7b' (preClean s) with _ | i
    · simp [sanitizeResponse, hf]
    · rcases hl : lastIdxOf '\x7d' (preClean s) with _ | j
      · simp [sanitizeResponse, hf, hl]
      · simp only [hasBracePair, hf, hl] at h
        have hij : ¬ i < j := by simpa using h
        simp only [sanitizeResponse, hf, hl]
        rw [if_neg hij]

/-- C7 witness: a concrete prose-wrapped response is cut down to its
outermost brace span. -/
theorem c7_sanitizer_witness :
    sanitizeResponse (" x \x7ba\x7d y ".toList) = "\x7ba\x7d".toList := by
  have h := (c7_sanitizer (" x \x7ba\x7d y ".toList)).1 2 4 (by decide) (by decide) (by decide)
  rw [h]
  decide

/-! ## C8: the claim validator -/

/-- C8: `validate_required_fields` is valid exactly when its missing
list is empty; validity holds exactly when the four critical fields
(incident date, incident location, policyholder name, damage
description) are present and non-empty; every reported name is one of
those four; and on a claim with only `claim_id` set it returns
`(false, [incident_date, incident_location, policyholder_name,
damage.description])` in that order. -/
theorem c8_validator :
    (∀ c : FNOLInfo,
      ((c.validate_required_fields).1 = true ↔ (c.validate_required_fields).2 = []))
    ∧ (∀ c : FNOLInfo,
      ((c.validate_required_fields).1 = true ↔
        (pyFalsyOptStr c.incident_date = false ∧ pyFalsyOptStr c.incident_location = false ∧
         pyFalsyOptStr c.policyholder_name = false ∧ damageMissing c = false)))
    ∧ (∀ c : FNOLInfo, ∀ f ∈ (c.validate_required_fields).2,
        f ∈ ["incident_date", "incident_location", "policyholder_name", "damage.description"])
    ∧ FNOLInfo.validate_required_fields
        ⟨some "C001", none, none, none, none, none, VehicleInfo.empty, none, none, none, none⟩
      = (false, ["incident_date", "incident_location", "policyholder_name", "damage.description"]) := by
  refine ⟨?_, ?_, ?_, by decide⟩
  · intro c
    cases h1 : pyFalsyOptStr c.incident_date <;>
      cases h2 : pyFalsyOptStr c.incident_location <;>
      cases h3 : pyFalsyOptStr c.policyholder_name <;>
      cases h4 : damageMissing c <;>
      simp [FNOLInfo.validate_required_fields, h1, h2, h3, h4]
  · intro c
    cases h1 : pyFalsyOptStr c.incident_date <;>
      cases h2 : pyFalsyOptStr c.incident_location <;>
      cases h3 : pyFalsyOptStr c.policyholder_name <;>
      cases h4 : damageMissing c <;>
      simp [FNOLInfo.validate_required_fields, h1, h2, h3, h4]
  · intro c f hf
    cases h1 : pyFalsyOptStr c.incident_date <;>
      cases h2 : pyFalsyOptStr c.incident_location <;>
      cases h3 : pyFalsyOptStr c.policyholder_name <;>
      cases h4 : damageMissing c <;>
      simp [FNOLInfo.validate_required_fields, h1, h2, h3, h4] at hf <;>
      simp_all <;> tauto

/-- C8 witness: the all-empty claim reports `incident_date` among its
missing fields, and that name is one of the four required ones. -/
theorem c8_validator_witness :
    ("incident_date" : String)
      ∈ ["incident_date", "incident_location", "policyholder_name", "damage.description"] :=
  c8_validator.2.2.1 ⟨none, none, none, none, none, none, VehicleInfo.empty, none, none, none, none⟩
    "incident_date" (by decide)

/-! ## C9: initial-extraction error split (corrected) -/

/-- C9 counterexample: a raw response whose prose marker survives only
in `response.text`, and whose sanitized JSON parses but fails the
batch schema (`claims` is not a list).  The resulting error is the
schema-side one and its message does not contain the original raw
response text, contradicting the claim that the schema error surfaces
the raw text. -/
theorem c9_counterexample :
    extractStage "RAW-MARKER ```json \x7b\"claims\": 5\x7d```"
        (.ok (Json.obj [("claims", Json.num 5)]))
      = .error (.schemaError "claims: Input should be a valid list")
    ∧ containsSeg "claims: Input should be a valid list".toList
        "RAW-MARKER ```json \x7b\"claims\": 5\x7d```".toList = false := by
  constructor
  · rfl
  · decide

/-- C9 amended: on the initial extraction, a response that parses as
JSON but fails `BatchFNOLInfo` construction is reported through the
generic-exception branch as a `schemaError` carrying only the
constructor's message — a shape distinct from the `decodeError` of the
`json.JSONDecodeError` branch; the original raw response text is
attached to `decodeError` alone. -/
theorem c9_amended :
    (∀ (raw : String) (v : Json) (e : String), BatchFNOLInfo.fromJson v = .error e →
      extractStage raw (.ok v) = .error (.schemaError e))
    ∧ (∀ (raw e : String), extractStage raw (.error e) = .error (.decodeError e raw))
    ∧ (∀ (m e raw : String), ExtractError.schemaError m ≠ ExtractError.decodeError e raw) := by
  refine ⟨?_, ?_, ?_⟩
  · intro raw v e he
    simp [extractStage, he]
  · intro raw e
    rfl
  · intro m e raw h
    exact absurd h (by simp)

/-- C9 amended witness: the concrete schema-violating parse from the
counterexample goes through the schema branch. -/
theorem c9_amended_witness :
    extractStage "prose" (.ok (Json.obj [("claims", Json.num 5)]))
      = .error (.schemaError "claims: Input should be a valid list") :=
  c9_amended.1 "prose" (Json.obj [("claims", Json.num 5)])
    "claims: Input should be a valid list" rfl

/-! ## C10: the vehicle/damage decode asymmetry -/

/-- C10: decoding a claim object with no `vehicle` key yields a record
whose vehicle is the empty `VehicleInfo()` (every sub-field `None`) —
the field itself is never absent, and an explicit JSON `null` vehicle
is rejected outright — whereas a claim object with no `damage` key
yields `damage = None`. -/
theorem c10_vehicle_damage :
    (∀ (kvs : List (String × Json)) (r : FNOLInfo), lookupKey kvs "vehicle" = none →
      FNOLInfo.fromJson (.obj kvs) = .ok r → r.vehicle = VehicleInfo.empty)
    ∧ (∀ (kvs : List (String × Json)) (r : FNOLInfo), lookupKey kvs "damage" = none →
      FNOLInfo.fromJson (.obj kvs) = .ok r → r.damage = none)
    ∧ (∀ (kvs : List (String × Json)) (r : FNOLInfo), lookupKey kvs "vehicle" = some .null →
      FNOLInfo.fromJson (.obj kvs) ≠ .ok r) := by
  refine ⟨?_, ?_, ?_⟩
  · intro kvs r hveh hok
    simp only [FNOLInfo.fromJson] at hok
    obtain ⟨c1, -, hok⟩ := exceptBind_ok.mp hok
    obtain ⟨c2, -, hok⟩ := exceptBind_ok.mp hok
    obtain ⟨c3, -, hok⟩ := exceptBind_ok.mp hok
    obtain ⟨c4, -, hok⟩ := exceptBind_ok.mp hok
    obtain ⟨c5, -, hok⟩ := exceptBind_ok.mp hok
    obtain ⟨c6, -, hok⟩ := exceptBind_ok.mp hok
    obtain ⟨veh, hv, hok⟩ := exceptBind_ok.mp hok
    rw [hveh] at hv
    obtain rfl : VehicleInfo.empty = veh := by simpa [vehicleFieldOfJson] using hv
    obtain ⟨dmg, -, hok⟩ := exceptBind_ok.mp hok
    obtain ⟨idesc, -, hok⟩ := exceptBind_ok.mp hok
    obtain ⟨opi, -, hok⟩ := exceptBind_ok.mp hok
    obtain ⟨prf, -, hok⟩ := exceptBind_ok.mp hok
    obtain rfl :
        (⟨c1, c2, c3, c4, c5, c6, VehicleInfo.empty, dmg, idesc, opi, prf⟩ : FNOLInfo) = r := by
      simpa [pure, Except.pure] using hok
    rfl
  · intro kvs r hdmg hok
    simp only [FNOLInfo.fromJson] at hok
    obtain ⟨c1, -, hok⟩ := exceptBind_ok.mp hok
    obtain ⟨c2, -, hok⟩ := exceptBind_ok.mp hok
    obtain ⟨c3, -, hok⟩ := exceptBind_ok.mp hok
    obtain ⟨c4, -, hok⟩ := exceptBind_ok.mp hok
    obtain ⟨c5, -, hok⟩ := exceptBind_ok.mp hok
    obtain ⟨c6, -, hok⟩ := exceptBind_ok.mp hok
    obtain ⟨veh, -, hok⟩ := exceptBind_ok.mp hok
    obtain ⟨dmg, hd, hok⟩ := exceptBind_ok.mp hok
    rw [hdmg] at hd
    obtain rfl : (none : Option DamageInfo) = dmg := by simpa [decodeOpt] using hd
    obtain ⟨idesc, -, hok⟩ := exceptBind_ok.mp hok
    obtain ⟨opi, -, hok⟩ := exceptBind_ok.mp hok
    obtain ⟨prf, -, hok⟩ := exceptBind_ok.mp hok
    obtain rfl :
        (⟨c1, c2, c3, c4, c5, c6, veh, none, idesc, opi, prf⟩ : FNOLInfo) = r := by
      simpa [pure, Except.pure] using hok
    rfl
  · intro kvs r hveh hok
    simp only [FNOLInfo.fromJson] at hok
    obtain ⟨c1, -, hok⟩ := exceptBind_ok.mp hok
    obtain ⟨c2, -, hok⟩ := exceptBind_ok.mp hok
    obtain ⟨c3, -, hok⟩ := exceptBind_ok.mp hok
    obtain ⟨c4, -, hok⟩ := exceptBind_ok.mp hok
    obtain ⟨c5, -, hok⟩ := exceptBind_ok.mp hok
    obtain ⟨c6, -, hok⟩ := exceptBind_ok.mp hok
    obtain ⟨veh, hv, -⟩ := exceptBind_ok.mp hok
    rw [hveh] at hv
    simp [vehicleFieldOfJson, VehicleInfo.fromJson] at hv

/-- C10 witness: a one-field claim object decodes with the empty
vehicle record and an absent damage descriptor. -/
theorem c10_vehicle_damage_witness :
    (⟨some "C001", none, none, none, none, none, VehicleInfo.empty, none, none, none,
        none⟩ : FNOLInfo).vehicle = VehicleInfo.empty
    ∧ (⟨some "C001", none, none, none, none, none, VehicleInfo.empty, none, none, none,
        none⟩ : FNOLInfo).damage = none :=
  ⟨c10_vehicle_damage.1 [("claim_id", Json.str "C001")] _ rfl rfl,
   c10_vehicle_damage.2.1 [("claim_id", Json.str "C001")] _ rfl rfl⟩

/-! ## Round-level lemmas for the feedback loop -/

/-- A critique payload that is a JSON object carrying score 0 never
converges, whatever its other fields hold. -/
theorem critiqueDecision_score_zero (kvs : List (String × Json))
    (h : lookupKey kvs "overall_quality_score" = some (Json.num 0)) :
    critiqueDecision (some (.obj kvs)) target_score = .ok false := by
  simp [critiqueDecision, h, pyGeTarget, target_score]

/-- A converging critique ends the loop at once with the current batch
and one more critique invocation. -/
theorem feedbackGo_converge (critiques refines : Nat → Option Json)
    (maxIter fuel iteration : Nat) (current : BatchFNOLInfo) (ncrit nref : Nat)
    (hlt : iteration < maxIter)
    (hc : critiqueDecision (critiques (iteration + 1)) target_score = .ok true) :
    feedbackGo critiques refines maxIter (fuel + 1) iteration current ncrit nref
      = .ok (current, ncrit + 1, nref) := by
  simp [feedbackGo, hlt, hc]

/-- A non-converging critique in a round that is not the last proceeds
to the refinement step and recurses into the next round. -/
theorem feedbackGo_continue (critiques refines : Nat → Option Json)
    (maxIter fuel iteration : Nat) (current : BatchFNOLInfo) (ncrit nref : Nat)
    (hlt : iteration + 1 < maxIter)
    (hc : critiqueDecision (critiques (iteration + 1)) target_score = .ok false) :
    feedbackGo critiques refines maxIter (fuel + 1) iteration current ncrit nref
      = feedbackGo critiques refines maxIter fuel (iteration + 1)
          (applyRefine refines (iteration + 1) current) (ncrit + 1) (nref + 1) := by
  have h1 : iteration < maxIter := by omega
  have h2 : ¬ maxIter ≤ iteration + 1 := by omega
  simp [feedbackGo, h1, h2, hc]

/-- Exhaustion run: starting `r ≥ 1` rounds before the budget ends,
with every remaining critique reporting score 0, the loop performs `r`
critiques and `r − 1` refinements and returns the fold of the
refinement outcomes. -/
theorem feedbackGo_exhaust (critiques refines : Nat → Option Json) :
    ∀ (r iteration : Nat) (current : BatchFNOLInfo) (ncrit nref : Nat),
      1 ≤ r → iteration + r = max_iterations →
      (∀ k, 1 ≤ k → k ≤ r → ∃ kvs, critiques (iteration + k) = some (Json.obj kvs) ∧
        lookupKey kvs "overall_quality_score" = some (Json.num 0)) →
      feedbackGo critiques refines max_iterations r iteration current ncrit nref
        = .ok (foldRefines refines iteration (r - 1) current, ncrit + r, nref + (r - 1)) := by
  intro r
  induction r with
  | zero =>
    intro iteration current ncrit nref h1 h2 hall
    exact absurd h1 (by omega)
  | succ r ih =>
    intro iteration current ncrit nref h1 h2 hall
    have hlt : iteration < max_iterations := by omega
    obtain ⟨kvs, hck, hscore⟩ := hall 1 (by omega) (by omega)
    have hdec : critiqueDecision (critiques (iteration + 1)) target_score = .ok false := by
      rw [hck]
      exact critiqueDecision_score_zero kvs hscore
    rcases Nat.eq_zero_or_pos r with hr | hr
    · subst hr
      have hge : max_iterations ≤ iteration + 1 := by omega
      simp [feedbackGo, hlt, hdec, hge, foldRefines]
    · have hstep := feedbackGo_continue critiques refines max_iterations r iteration
        current ncrit nref (by omega) hdec
      rw [hstep]
      rw [ih (iteration + 1) (applyRefine refines (iteration + 1) current)
        (ncrit + 1) (nref + 1) hr (by omega) ?_]
      · have hfold : foldRefines refines iteration (r + 1 - 1) current
            = foldRefines refines (iteration + 1) (r - 1)
                (applyRefine refines (iteration + 1) current) := by
          have hsplit : r + 1 - 1 = (r - 1) + 1 := by omega
          rw [hsplit]
          rfl
        rw [hfold]
        have ha : ncrit + 1 + r = ncrit + (r + 1) := by omega
        have hb : nref + 1 + (r - 1) = nref + (r + 1 - 1) := by omega
        rw [ha, hb]
      · intro k hk1 hk2
        have := hall (k + 1) (by omega) (by omega)
        rwa [show iteration + (k + 1) = iteration + 1 + k by omega] at this

/-- The fold of rounds 1–4's refinement outcomes is the batch of the
last successful refinement (or the start batch when all fail). -/
theorem foldRefines_eq_last (refines : Nat → Option Json) (initial : BatchFNOLInfo) :
    foldRefines refines 0 4 initial = lastSuccessfulRefinement refines initial := by
  cases h1 : refineOutcome refines 1 <;>
    cases h2 : refineOutcome refines 2 <;>
    cases h3 : refineOutcome refines 3 <;>
    cases h4 : refineOutcome refines 4 <;>
    simp [foldRefines, lastSuccessfulRefinement, applyRefine, h1, h2, h3, h4]

/-! ## C1: exhaustion bound -/

/-- C1: when every critique response decodes to a JSON object whose
quality score is 0, the controller performs exactly
`max_iterations = 5` critique invocations and 4 refinement
invocations, and returns the batch produced by the last refinement
whose response decoded successfully (the initial batch if every
refinement failed to decode). -/
theorem c1_exhaustion (critiques refines : Nat → Option Json) (initial : BatchFNOLInfo)
    (h : ∀ i, 1 ≤ i → i ≤ 5 → ∃ kvs, critiques i = some (Json.obj kvs) ∧
      lookupKey kvs "overall_quality_score" = some (Json.num 0)) :
    applyFeedbackLoop critiques refines initial
      = .ok (lastSuccessfulRefinement refines initial, 5, 4) := by
  have hgo := feedbackGo_exhaust critiques refines 5 0 initial 0 0 (by omega)
    (by simp [max_iterations])
    (by
      intro k hk1 hk2
      simpa using h k hk1 hk2)
  have : applyFeedbackLoop critiques refines initial
      = feedbackGo critiques refines max_iterations 5 0 initial 0 0 := rfl
  rw [this, hgo, foldRefines_eq_last]

/-- C1 witness: all-zero critiques and never-decoding refinements give
back the initial batch after 5 critiques and 4 refinements. -/
theorem c1_exhaustion_witness :
    applyFeedbackLoop (fun _ => some (Json.obj [("overall_quality_score", Json.num 0)]))
      (fun _ => none) ⟨[]⟩ = .ok (⟨[]⟩, 5, 4) := by
  have h := c1_exhaustion (fun _ => some (Json.obj [("overall_quality_score", Json.num 0)]))
    (fun _ => none) ⟨[]⟩
    (fun i _ _ => ⟨[("overall_quality_score", Json.num 0)], rfl, rfl⟩)
  simpa [lastSuccessfulRefinement, refineOutcome] using h

/-! ## C2: first-round convergence -/

/-- C2: if the round-1 critique decodes to an object with
`overall_quality_score` equal to 10 and `json_valid` true, the
controller performs exactly one critique invocation, no refinement
invocation, and returns the initial batch unchanged. -/
theorem c2_idempotence (critiques refines : Nat → Option Json) (initial : BatchFNOLInfo)
    (kvs : List (String × Json))
    (h1 : critiques 1 = some (Json.obj kvs))
    (h2 : lookupKey kvs "overall_quality_score" = some (Json.num 10))
    (h3 : lookupKey kvs "json_valid" = some (Json.bool true)) :
    applyFeedbackLoop critiques refines initial = .ok (initial, 1, 0) := by
  have hdec : critiqueDecision (critiques 1) target_score = .ok true := by
    rw [h1]
    simp [critiqueDecision, h2, h3, pyGeTarget, target_score, truthy]
  have := feedbackGo_converge critiques refines max_iterations 4 0 initial 0 0
    (by simp [max_iterations]) (by simpa using hdec)
  exact this

/-- C2 witness: a concrete perfect-score round-1 critique converges at
once on the empty batch. -/
theorem c2_idempotence_witness :
    applyFeedbackLoop
      (fun _ => some (Json.obj [("overall_quality_score", Json.num 10),
        ("json_valid", Json.bool true)]))
      (fun _ => none) ⟨[]⟩ = .ok (⟨[]⟩, 1, 0) :=
  c2_idempotence _ _ ⟨[]⟩
    [("overall_quality_score", Json.num 10), ("json_valid", Json.bool true)] rfl rfl rfl

/-! ## C3: refinement-failure resilience -/

/-- C3: in any round that reaches the refinement step (a
non-converging critique with budget left), a refinement response that
fails to decode — not valid JSON, or a batch-construction failure —
leaves the current batch unchanged and the loop continues into the
next round's critique against that same batch, with both invocation
counters advanced; it neither terminates nor errors there. -/
theorem c3_refinement_failure (critiques refines : Nat → Option Json)
    (fuel iteration : Nat) (current : BatchFNOLInfo) (ncrit nref : Nat)
    (hlt : iteration + 1 < max_iterations)
    (hc : critiqueDecision (critiques (iteration + 1)) target_score = .ok false)
    (hr : refineOutcome refines (iteration + 1) = none) :
    feedbackGo critiques refines max_iterations (fuel + 1) iteration current ncrit nref
      = feedbackGo critiques refines max_iterations fuel (iteration + 1) current
          (ncrit + 1) (nref + 1) := by
  have h := feedbackGo_continue critiques refines max_iterations fuel iteration
    current ncrit nref hlt hc
  rw [h]
  simp [applyRefine, hr]

/-- C3 witness: a failing refinement after a score-0 critique carries
the empty batch unchanged into round 2. -/
theorem c3_refinement_failure_witness :
    feedbackGo (fun _ => some (Json.obj [("overall_quality_score", Json.num 0)]))
      (fun _ => none) max_iterations 3 0 ⟨[]⟩ 0 0
      = feedbackGo (fun _ => some (Json.obj [("overall_quality_score", Json.num 0)]))
          (fun _ => none) max_iterations 2 1 ⟨[]⟩ 1 1 :=
  c3_refinement_failure (fun _ => some (Json.obj [("overall_quality_score", Json.num 0)]))
    (fun _ => none) 2 0 ⟨[]⟩ 0 0 (by decide) (by rfl) rfl

/-! ## C4: critique decode failure is absorbed -/

/-- C4: a critique response that is not valid JSON produces no error
and no convergence — the round behaves exactly as if the critique had
decoded to a report with score 0 and `json_valid` false — and the loop
is not aborted: with budget left it proceeds to the refinement step
and the next round, and on the final round it returns the current
batch; in neither case does an exception escape. -/
theorem c4_critique_decode_failure :
    critiqueDecision none target_score = .ok false
    ∧ critiqueDecision none target_score
      = critiqueDecision (some (Json.obj [("overall_quality_score", Json.num 0),
          ("json_valid", Json.bool false)])) target_score
    ∧ (∀ (critiques refines : Nat → Option Json) (fuel iteration : Nat)
        (current : BatchFNOLInfo) (ncrit nref : Nat),
        iteration < max_iterations → critiques (iteration + 1) = none →
        feedbackGo critiques refines max_iterations (fuel + 1) iteration current ncrit nref
          = if max_iterations ≤ iteration + 1 then .ok (current, ncrit + 1, nref)
            else feedbackGo critiques refines max_iterations fuel (iteration + 1)
              (applyRefine refines (iteration + 1) current) (ncrit + 1) (nref + 1)) := by
  refine ⟨rfl, rfl, ?_⟩
  intro critiques refines fuel iteration current ncrit nref hlt hnone
  have hc : critiqueDecision (critiques (iteration + 1)) target_score = .ok false := by
    rw [hnone]
    rfl
  simp [feedbackGo, hlt, hc]

/-- C4 witness: with every critique unparseable, round 1 absorbs the
failure and recurses into round 2. -/
theorem c4_critique_decode_failure_witness :
    feedbackGo (fun _ => none) (fun _ => none) max_iterations 3 0 ⟨[]⟩ 0 0
      = feedbackGo (fun _ => none) (fun _ => none) max_iterations 2 1 ⟨[]⟩ 1 1 := by
  have h := c4_critique_decode_failure.2.2 (fun _ => none) (fun _ => none) 2 0 ⟨[]⟩ 0 0
    (by decide) rfl
  simpa [applyRefine, refineOutcome, max_iterations] using h

/-! ## C5: deciding-step edge policy -/

/-- C5: in the deciding step, a score exactly at the target with
`json_valid` false does not converge (both conditions are mandatory);
a critique object with no score field decides exactly as one carrying
score 0 (and in particular does not converge); and a critique object
with no `json_valid` field decides exactly as one carrying
`json_valid` true, so a target-meeting score alone converges. -/
theorem c5_edge_policy :
    (∀ kvs : List (String × Json),
      lookupKey kvs "overall_quality_score" = some (Json.num 10) →
      lookupKey kvs "json_valid" = some (Json.bool false) →
      critiqueDecision (some (.obj kvs)) target_score = .ok false)
    ∧ (∀ kvs : List (String × Json),
      lookupKey kvs "overall_quality_score" = none →
      critiqueDecision (some (.obj kvs)) target_score
        = critiqueDecision (some (.obj (("overall_quality_score", Json.num 0) :: kvs)))
            target_score
      ∧ critiqueDecision (some (.obj kvs)) target_score = .ok false)
    ∧ (∀ (kvs : List (String × Json)) (n : Int),
      lookupKey kvs "json_valid" = none →
      lookupKey kvs "overall_quality_score" = some (Json.num n) →
      critiqueDecision (some (.obj kvs)) target_score
        = critiqueDecision (some (.obj (("json_valid", Json.bool true) :: kvs))) target_score
      ∧ critiqueDecision (some (.obj kvs)) target_score = .ok (decide (target_score ≤ n))) := by
  refine ⟨?_, ?_, ?_⟩
  · intro kvs h1 h2
    simp [critiqueDecision, h1, h2, pyGeTarget, truthy]
  · intro kvs h1
    constructor
    · simp [critiqueDecision, h1, lookupKey,
        lookupKey_cons_ne (by decide : "overall_quality_score" ≠ "json_valid")]
    · simp [critiqueDecision, h1, pyGeTarget, target_score]
  · intro kvs n h1 h2
    constructor
    · simp [critiqueDecision, h1, h2, lookupKey,
        lookupKey_cons_ne (by decide : "json_valid" ≠ "overall_quality_score")]
    · simp [critiqueDecision, h1, h2, pyGeTarget, truthy]

/-- C5 witness: the three edge cases at concrete critique objects. -/
theorem c5_edge_policy_witness :
    critiqueDecision (some (.obj [("overall_quality_score", Json.num 10),
        ("json_valid", Json.bool false)])) target_score = .ok false
    ∧ critiqueDecision (some (.obj [("json_valid", Json.bool true)])) target_score = .ok false
    ∧ critiqueDecision (some (.obj [("overall_quality_score", Json.num 10)])) target_score
      = .ok true := by
  refine ⟨c5_edge_policy.1 _ rfl rfl, (c5_edge_policy.2.1 [("json_valid", Json.bool true)] rfl).2, ?_⟩
  have h := (c5_edge_policy.2.2 [("overall_quality_score", Json.num 10)] 10 rfl rfl).2
  simpa [target_score] using h

/-! ## C6: out-of-range scores (corrected) -/

/-- C6 counterexample: a critique whose quality score is 15 — outside
the 1–10 bounds — is not treated as 0/invalid: the run converges
immediately, returning after a single critique invocation with no
refinement, so an out-of-range score can cause convergence. -/
theorem c6_counterexample :
    applyFeedbackLoop
      (fun _ => some (Json.obj [("overall_quality_score", Json.num 15),
        ("json_valid", Json.bool true)]))
      (fun _ => none) ⟨[]⟩ = .ok (⟨[]⟩, 1, 0) :=
  feedbackGo_converge _ _ max_iterations 4 0 ⟨[]⟩ 0 0 (by decide) rfl

/-- C6 amended: a missing quality score is treated as 0 and never
converges, but an out-of-range score is not clamped — the deciding
step compares the reported number directly with the target, so scores
above 10 converge whenever `json_valid` is truthy while negative (or
any sub-target) scores never do. -/
theorem c6_amended :
    (∀ kvs : List (String × Json), lookupKey kvs "overall_quality_score" = none →
      critiqueDecision (some (.obj kvs)) target_score = .ok false)
    ∧ (∀ (kvs : List (String × Json)) (n : Int),
      lookupKey kvs "overall_quality_score" = some (Json.num n) →
      critiqueDecision (some (.obj kvs)) target_score
        = .ok (decide (target_score ≤ n)
            && truthy ((lookupKey kvs "json_valid").getD (Json.bool true)))) := by
  constructor
  · intro kvs h
    simp [critiqueDecision, h, pyGeTarget, target_score]
  · intro kvs n h
    simp [critiqueDecision, h, pyGeTarget]

/-- C6 amended witness: an empty critique object and a negative score
both fail to converge. -/
theorem c6_amended_witness :
    critiqueDecision (some (.obj [])) target_score = .ok false
    ∧ critiqueDecision (some (.obj [("overall_quality_score", Json.num (-3))])) target_score
      = .ok false := by
  refine ⟨c6_amended.1 [] rfl, ?_⟩
  have h := c6_amended.2 [("overall_quality_score", Json.num (-3))] (-3) rfl
  simpa [target_score, truthy, lookupKey] using h
